import Mathlib

/-!
Verification development for the scanner-controller serial core
(`utilities/scanner_utils_uniden.py` and `utilities/readlineSetup.py`).

Python strings are modelled as lists of characters (`Str`), byte strings as
lists of naturals below 256.  Serial I/O is modelled by passing the raw bytes
that a read would deliver as an explicit argument; exceptions are modelled
with `Except Unit`.
-/

/-- A Python `str` value: a sequence of code points. -/
abbrev Str := List Char

/-- Python `str.strip()` with no argument: drop whitespace from both ends. -/
def strTrim (s : Str) : Str :=
  ((s.dropWhile Char.isWhitespace).reverse.dropWhile Char.isWhitespace).reverse

/-- Helper for `splitWs`: accumulate the current word (reversed) while
scanning. -/
def splitWsAux : Str → Str → List Str
  | [], acc => if acc = [] then [] else [acc.reverse]
  | c :: cs, acc =>
    if c.isWhitespace then
      if acc = [] then splitWsAux cs [] else acc.reverse :: splitWsAux cs []
    else splitWsAux cs (c :: acc)

/-- Python `str.split()` with no argument: split on runs of whitespace,
dropping empty pieces. -/
def splitWs (s : Str) : List Str := splitWsAux s []

/-- Python `str.lower()` (ASCII view, which is all the registry uses). -/
def strLower (s : Str) : Str := s.map Char.toLower

/-- UTF-8 encoding of one code point (as in Python `str.encode("utf-8")`). -/
def utf8EncodeChar (c : Char) : List Nat :=
  let n := c.toNat
  if n < 0x80 then [n]
  else if n < 0x800 then [0xC0 + n / 0x40, 0x80 + n % 0x40]
  else if n < 0x10000 then
    [0xE0 + n / 0x1000, 0x80 + (n / 0x40) % 0x40, 0x80 + n % 0x40]
  else
    [0xF0 + n / 0x40000, 0x80 + (n / 0x1000) % 0x40,
     0x80 + (n / 0x40) % 0x40, 0x80 + n % 0x40]

/-- UTF-8 encoding of a string, as in Python `str.encode("utf-8")`. -/
def utf8Encode (s : Str) : List Nat := (s.map utf8EncodeChar).flatten

/-- A UTF-8 continuation byte: `10xxxxxx`. -/
def isCont (b : Nat) : Bool := decide (0x80 ≤ b ∧ b ≤ 0xBF)

/-- Strict UTF-8 decoding, as in Python `bytes.decode("utf-8")`: rejects
stray continuation bytes, overlong forms, surrogates and values above
U+10FFFF.  `none` models a raised `UnicodeDecodeError`. -/
def decodeUtf8? : List Nat → Option Str
  | [] => some []
  | b :: bs =>
    if b ≤ 0x7F then
      match decodeUtf8? bs with
      | some cs => some (Char.ofNat b :: cs)
      | none => none
    else if b < 0xC2 then none
    else if b ≤ 0xDF then
      match bs with
      | b2 :: bs2 =>
        if isCont b2 then
          match decodeUtf8? bs2 with
          | some cs => some (Char.ofNat ((b - 0xC0) * 0x40 + (b2 - 0x80)) :: cs)
          | none => none
        else none
      | [] => none
    else if b ≤ 0xEF then
      match bs with
      | b2 :: b3 :: bs3 =>
        if isCont b2 && isCont b3 &&
            (decide (b ≠ 0xE0) || decide (0xA0 ≤ b2)) &&
            (decide (b ≠ 0xED) || decide (b2 ≤ 0x9F)) then
          match decodeUtf8? bs3 with
          | some cs =>
            some (Char.ofNat
              ((b - 0xE0) * 0x1000 + (b2 - 0x80) * 0x40 + (b3 - 0x80)) :: cs)
          | none => none
        else none
      | _ => none
    else if b ≤ 0xF4 then
      match bs with
      | b2 :: b3 :: b4 :: bs4 =>
        if isCont b2 && isCont b3 && isCont b4 &&
            (decide (b ≠ 0xF0) || decide (0x90 ≤ b2)) &&
            (decide (b ≠ 0xF4) || decide (b2 ≤ 0x8F)) then
          match decodeUtf8? bs4 with
          | some cs =>
            some (Char.ofNat
              ((b - 0xF0) * 0x40000 + (b2 - 0x80) * 0x1000 +
                (b3 - 0x80) * 0x40 + (b4 - 0x80)) :: cs)
          | none => none
        else none
      | _ => none
    else none

/-- `decode("utf-8")` followed by `.strip()`, the composite performed inside
`read_response`; `Except.error` models the raised decode error. -/
def decodeAndTrim (raw : List Nat) : Except Unit Str :=
  match decodeUtf8? raw with
  | none => Except.error ()
  | some s => Except.ok (strTrim s)

/-! ### Transport layer (`read_response`, `send_command`) -/

/-- An open serial channel: the configuration a `serial.Serial` object owns.
`timeout` is the read timeout in seconds. -/
structure SerialConn where
  port : Str
  baudrate : Nat
  timeout : Rat
deriving DecidableEq

/-- `read_response(ser, timeout=1.0)`.  `raw` is the byte string that
`ser.read_until(b"\r")` delivers (including a trailing CR when one arrived).
Returns the updated connection (the function assigns `ser.timeout = timeout`
before reading), the timeout value the read was actually performed with, and
the decoded stripped response (`Except.error` models a raised decode error). -/
def read_response (ser : SerialConn) (raw : List Nat) (timeout : Rat) :
    SerialConn × Rat × Except Unit Str :=
  let ser2 : SerialConn := ⟨ser.port, ser.baudrate, timeout⟩
  (ser2, ser2.timeout, decodeAndTrim raw)

/-- `read_response` called with its default argument `timeout=1.0`. -/
def read_response_default (ser : SerialConn) (raw : List Nat) :
    SerialConn × Rat × Except Unit Str :=
  read_response ser raw 1

deriving instance DecidableEq for Except

/-- The observable outcome of one `send_command` call. -/
structure CommandResult where
  written : List Nat
  usedTimeout : Rat
  conn : SerialConn
  response : Except Unit Str
deriving DecidableEq

/-- `send_command(ser, cmd)`: writes `f"{cmd}\r".encode("utf-8")` and then
calls `read_response(ser)` (default timeout).  `raw` is the byte string the
subsequent read delivers. -/
def send_command (ser : SerialConn) (cmd : Str) (raw : List Nat) :
    CommandResult :=
  let written := utf8Encode (cmd ++ ['\r'])
  let r := read_response_default ser raw
  ⟨written, r.2.1, r.1, r.2.2⟩

/-! ### `wait_for_data` -/

/-- Loop body of `wait_for_data`: iteration `k` runs at elapsed time
`k / 100` seconds (the 0.01 s sleep per iteration, with the poll itself
idealised as instantaneous).  Returns the result together with the number of
`ser.in_waiting` inspections performed.  `fuel` only bounds the recursion;
`wfdFuel` below always provides enough for the time check to stop the loop
first. -/
def wfdGo (inWaiting : Nat → Bool) (maxWait : Rat) : Nat → Nat → Bool × Nat
  | k, 0 => (false, k)
  | k, fuel + 1 =>
    if (k : Rat) / 100 < maxWait then
      if inWaiting k then (true, k + 1) else wfdGo inWaiting maxWait (k + 1) fuel
    else (false, k)

/-- Enough fuel that `wfdGo` always stops on its time check. -/
def wfdFuel (maxWait : Rat) : Nat := (Int.ceil (100 * maxWait)).toNat + 1

/-- `wait_for_data(ser, max_wait)`, instrumented: result plus the number of
times `ser.in_waiting` was inspected.  `inWaiting k` tells whether data is
available at the `k`-th poll. -/
def wait_for_data_run (inWaiting : Nat → Bool) (maxWait : Rat) : Bool × Nat :=
  wfdGo inWaiting maxWait 0 (wfdFuel maxWait)

/-- `wait_for_data(ser, max_wait)`: the boolean the function returns. -/
def wait_for_data (inWaiting : Nat → Bool) (maxWait : Rat) : Bool :=
  (wait_for_data_run inWaiting maxWait).1

/-! ### Discovery probe (`find_scanner_port`) -/

/-- The literal head `"MDL,"` of the Uniden model-response grammar. -/
def mdlHeader : Str := ['M', 'D', 'L', ',']

/-- A character of the class `[A-Za-z0-9,]`. -/
def isMdlChar (c : Char) : Bool := c.isAlphanum || c == ','

/-- `re.match(r"^MDL,([A-Za-z0-9,]+)$", s)`: `some payload` gives the
captured group 1, `none` means no match. -/
def mdlMatch? (s : Str) : Option Str :=
  if mdlHeader.isPrefixOf s then
    let payload := s.drop 4
    if payload ≠ [] ∧ payload.all isMdlChar then some payload else none
  else none

/-- The substring of `s` strictly after the first comma (empty when `s` has
no comma); used to phrase what capture group 1 of the MDL pattern is. -/
def afterFirstComma : Str → Str
  | [] => []
  | c :: cs => if c = ',' then cs else afterFirstComma cs

/-- The fixed AOR-DV1 identity literal `"AR-DV1"`. -/
def arDv1Lit : Str := ['A', 'R', '-', 'D', 'V', '1']

/-- The dialect tag `"uniden"`. -/
def unidenTag : Str := ['u', 'n', 'i', 'd', 'e', 'n']

/-- The dialect tag `"aordv1"`. -/
def aordv1Tag : Str := ['a', 'o', 'r', 'd', 'v', '1']

/-- The bytes `b"MDL\r"` written for the primary probe. -/
def mdlProbeBytes : List Nat := [77, 68, 76, 13]

/-- The bytes `b"WI\r"` written for the secondary probe. -/
def wiProbeBytes : List Nat := [87, 73, 13]

/-- One `detected` entry: `(port.device, model code, dialect)`. -/
abbrev ProbeResult := Str × Str × Str

/-- Lifecycle events of the scoped serial connection. -/
inductive ConnEvent where
  | opened
  | closed
deriving DecidableEq

/-- What one candidate endpoint does when probed during one pass.
`openFails` models `serial.Serial(...)` raising; `mdlRaw` / `wiRaw` are the
byte strings `read_until` delivers after the respective probe write, with
`Except.error` modelling an exception raised by that write or read.  A
timeout is `Except.ok []` (no bytes before the deadline). -/
structure PortBehavior where
  device : Str
  openFails : Bool
  mdlRaw : Except Unit (List Nat)
  wiRaw : Except Unit (List Nat)
deriving DecidableEq

/-- The observable outcome of probing one endpoint: the classification (or
the exception that escaped the `with` block), the probe byte strings written,
and the connection lifecycle events, in order. -/
structure ProbeOutcome where
  result : Except Unit (Option ProbeResult)
  writes : List (List Nat)
  events : List ConnEvent
deriving DecidableEq

/-- Body of the `with serial.Serial(...) as ser:` block in
`find_scanner_port`: write `b"MDL\r"`, read and classify, and only on a
non-match write `b"WI\r"` and classify that response. -/
def probeBody (b : PortBehavior) : Except Unit (Option ProbeResult) × List (List Nat) :=
  match b.mdlRaw with
  | Except.error _ => (Except.error (), [mdlProbeBytes])
  | Except.ok raw =>
    match decodeAndTrim raw with
    | Except.error _ => (Except.error (), [mdlProbeBytes])
    | Except.ok response =>
      match mdlMatch? response with
      | some modelCode =>
        (Except.ok (some (b.device, modelCode, unidenTag)), [mdlProbeBytes])
      | none =>
        match b.wiRaw with
        | Except.error _ => (Except.error (), [mdlProbeBytes, wiProbeBytes])
        | Except.ok raw2 =>
          match decodeAndTrim raw2 with
          | Except.error _ => (Except.error (), [mdlProbeBytes, wiProbeBytes])
          | Except.ok response2 =>
            if strTrim response2 = arDv1Lit then
              (Except.ok (some (b.device, arDv1Lit, aordv1Tag)),
               [mdlProbeBytes, wiProbeBytes])
            else (Except.ok none, [mdlProbeBytes, wiProbeBytes])

/-- Probing one endpoint, `with`-statement semantics included: a failed open
performs no I/O and opens nothing; otherwise the connection is opened, the
body runs (possibly raising), and the `with` exit closes the connection on
every path before anything else happens. -/
def probePort (b : PortBehavior) : ProbeOutcome :=
  if b.openFails then ⟨Except.error (), [], []⟩
  else
    let body := probeBody b
    ⟨body.1, body.2, [ConnEvent.opened, ConnEvent.closed]⟩

/-- One full pass of the `for port in ports:` loop: the `try`/`except` wraps
each endpoint, so an exception is logged and the loop continues with the next
endpoint; classifications accumulate in order. -/
def scanPass : List PortBehavior → List ProbeResult
  | [] => []
  | b :: rest =>
    match (probePort b).result with
    | Except.error _ => scanPass rest
    | Except.ok none => scanPass rest
    | Except.ok (some r) => r :: scanPass rest

/-- Connection lifecycle events of a whole pass, in order. -/
def scanPassTrace (ports : List PortBehavior) : List ConnEvent :=
  (ports.map (fun b => (probePort b).events)).flatten

/-- The `while retries < max_retries:` loop of `find_scanner_port`, with the
pass counter made explicit.  `fuel` is `max_retries - retries`; `passCount`
counts the full passes performed so far, and `enum passCount` is what
`list_ports.comports()` enumerates on that pass. -/
def fspGo (enum : Nat → List PortBehavior) : Nat → Nat → Nat × List ProbeResult
  | 0, passCount => (passCount, [])
  | fuel + 1, passCount =>
    let detected := scanPass (enum passCount)
    if detected = [] then fspGo enum fuel (passCount + 1)
    else (passCount + 1, detected)

/-- `find_scanner_port(max_retries=...)`, instrumented with the number of
full passes performed: returns `(passes, detected)`. -/
def find_scanner_port (enum : Nat → List PortBehavior) (maxRetries : Nat) :
    Nat × List ProbeResult :=
  fspGo enum maxRetries 0

/-! ### Completion provider (`readlineSetup.completer`) -/

/-- Python `buffer.endswith(" ")`. -/
def endsWithSpace (s : Str) : Bool := decide (s.getLast? = some ' ')

/-- Sub-argument tokens of a handler: `__doc__.split()` when a docstring is
present, else the empty list.  A handler is modelled by its docstring, the
only part `completer` uses. -/
def docTokens : Option Str → List Str
  | some d => splitWs d
  | none => []

/-- The `matches` list computed by `completer` for the given registry,
raw line buffer and completion text. -/
def completerMatches (commands : List (Str × Option Str))
    (lineBuffer text : Str) : List Str :=
  let buffer := strTrim lineBuffer
  let parts := splitWs buffer
  if parts.length = 0 ∨ (parts.length = 1 ∧ ¬ endsWithSpace buffer) then
    (commands.map Prod.fst).filter (fun cmd => text.isPrefixOf cmd)
  else
    match parts with
    | first :: _ =>
      let command := strLower first
      match List.lookup command commands with
      | some doc => (docTokens doc).filter (fun sub => text.isPrefixOf sub)
      | none => []
    | [] => []

/-- `completer(text, state)`: the `state`-th match, `None` past the end. -/
def completer (commands : List (Str × Option Str)) (lineBuffer text : Str)
    (state : Nat) : Option Str :=
  (completerMatches commands lineBuffer text).get? state

/-! ### Concrete fixtures used by counterexamples and witnesses -/

/-- An endpoint that times out on both probes (the non-responsive case). -/
def deadPort : PortBehavior := ⟨['p'], false, Except.ok [], Except.ok []⟩

/-- An enumeration where every pass sees one non-responsive endpoint. -/
def allDeadEnum : Nat → List PortBehavior := fun _ => [deadPort]

/-- An endpoint whose open raises. -/
def failPort : PortBehavior := ⟨['q'], true, Except.ok [], Except.ok []⟩

/-- An endpoint answering `b"MDL,BCD\r"` to the primary probe. -/
def unidenPort : PortBehavior :=
  ⟨['p'], false, Except.ok [77, 68, 76, 44, 66, 67, 68, 13], Except.ok []⟩

/-- A connection opened with the 0.5 s probe timeout. -/
def probeConn : SerialConn := ⟨['p'], 115200, 1 / 2⟩

/-- The spec's example registry:
`{"vol": docstring "up down", "freq": docstring "set get"}`. -/
def volFreqCommands : List (Str × Option Str) :=
  [("vol".toList, some "up down".toList),
   ("freq".toList, some "set get".toList)]

/-! ### Helper lemmas -/

/-- A pass over non-responsive endpoints detects nothing. -/
theorem scanPass_eq_nil (ports : List PortBehavior)
    (h : ∀ b ∈ ports, b.openFails = false ∧
      b.mdlRaw = Except.ok [] ∧ b.wiRaw = Except.ok []) :
    scanPass ports = [] := by
  induction ports with
  | nil => rfl
  | cons b rest ih =>
    obtain ⟨dev, oF, mR, wR⟩ := b
    obtain ⟨h1, h2, h3⟩ := h _ (List.mem_cons_self _ _)
    simp only at h1 h2 h3
    subst h1; subst h2; subst h3
    show scanPass rest = []
    exact ih fun b hb => h b (List.mem_cons_of_mem _ hb)

/-- When every pass detects nothing, the retry loop burns all its fuel, one
pass per unit. -/
theorem fspGo_all_empty (enum : Nat → List PortBehavior) (fuel : Nat)
    (h : ∀ p, scanPass (enum p) = []) :
    ∀ pc, fspGo enum fuel pc = (pc + fuel, []) := by
  induction fuel with
  | zero => intro pc; rfl
  | succ fuel ih =>
    intro pc
    rw [fspGo]
    simp only [h pc, if_pos]
    rw [ih (pc + 1)]
    have : pc + 1 + fuel = pc + (fuel + 1) := by omega
    rw [this]

/-! ### Claim C1 -/

/-- Claim C1, as stated, is false: with `max_retries = 2` and every endpoint
non-responsive on every pass, `find_scanner_port` performs exactly 2 full
passes, not 2 + 1. -/
theorem c1_counterexample :
    find_scanner_port allDeadEnum 2 = (2, []) ∧
    (find_scanner_port allDeadEnum 2).1 ≠ 2 + 1 := by decide

/-- Claim C1 (amended): if every endpoint is non-responsive on every pass,
`find_scanner_port` with `max_retries = r` performs exactly `r` full passes
over the enumerated endpoints and then returns an empty list. -/
theorem c1_retry_passes (enum : Nat → List PortBehavior) (r : Nat)
    (h : ∀ p, ∀ b ∈ enum p, b.openFails = false ∧
      b.mdlRaw = Except.ok [] ∧ b.wiRaw = Except.ok []) :
    find_scanner_port enum r = (r, []) := by
  have hp : ∀ p, scanPass (enum p) = [] :=
    fun p => scanPass_eq_nil (enum p) (h p)
  have := fspGo_all_empty enum r hp 0
  simpa [find_scanner_port] using this

/-- Witness for C1 (amended) at one non-responsive endpoint and
`max_retries = 2`. -/
theorem c1_retry_passes_witness :
    (∀ p, ∀ b ∈ allDeadEnum p, b.openFails = false ∧
      b.mdlRaw = Except.ok [] ∧ b.wiRaw = Except.ok []) ∧
    find_scanner_port allDeadEnum 2 = (2, []) :=
  have h : ∀ p, ∀ b ∈ allDeadEnum p, b.openFails = false ∧
      b.mdlRaw = Except.ok [] ∧ b.wiRaw = Except.ok [] := by
    intro p b hb
    rw [show allDeadEnum p = [deadPort] from rfl, List.mem_singleton] at hb
    subst hb
    exact ⟨rfl, rfl, rfl⟩
  ⟨h, c1_retry_passes allDeadEnum 2 h⟩

/-! ### Claim C2 -/

/-- Claim C2 fails on the code: with the spec's example registry and raw
input line `"vol "` (completion text empty), the `completer` match list is
all top-level command names `["vol", "freq"]`, not the sub-argument tokens
`["up", "down"]` that the registry holds for `"vol"`.  The cause is that
`completer` strips the buffer before testing `buffer.endswith(" ")`, so the
trailing-space test can never succeed. -/
theorem c2_completion_eval :
    completerMatches volFreqCommands ("vol ".toList) [] =
      ["vol".toList, "freq".toList] ∧
    completerMatches volFreqCommands ("vol ".toList) [] ≠
      ["up".toList, "down".toList] ∧
    List.lookup ("vol".toList) volFreqCommands = some (some "up down".toList) ∧
    docTokens (some "up down".toList) = ["up".toList, "down".toList] := by
  decide

/-! ### Claim C3 -/

/-- Claim C3, as stated, is false: on a connection configured with the 0.5 s
probe timeout, the read inside `send_command` is performed with timeout 1.0
(the `read_response` default), not with the connection's configured
timeout. -/
theorem c3_counterexample :
    (send_command probeConn (['M', 'D', 'L']) []).usedTimeout ≠
      probeConn.timeout := by
  show (1 : Rat) ≠ 1 / 2
  norm_num

/-- Claim C3 (amended): `send_command` writes the command followed by a
single carriage-return terminator byte, then performs the line read with the
fixed 1.0 s default timeout (overwriting the connection's configured
timeout), returning the decoded, whitespace-stripped response. -/
theorem c3_send_command_behavior (ser : SerialConn) (cmd : Str)
    (raw : List Nat) :
    (send_command ser cmd raw).written = utf8Encode cmd ++ [13] ∧
    (send_command ser cmd raw).usedTimeout = 1 ∧
    (send_command ser cmd raw).response = decodeAndTrim raw := by
  refine ⟨?_, rfl, rfl⟩
  show utf8Encode (cmd ++ ['\r']) = utf8Encode cmd ++ [13]
  simp [utf8Encode, utf8EncodeChar]

/-! ### Claim C4 -/

/-- Claim C4, as stated, is false: on the undecodable byte sequence `[0xFF]`,
`read_response` raises (models `UnicodeDecodeError`) instead of returning an
empty response as a normal value. -/
theorem c4_counterexample :
    decodeUtf8? [255] = none ∧
    (read_response probeConn [255] 1).2.2 = Except.error () ∧
    (read_response probeConn [255] 1).2.2 ≠ Except.ok [] := by decide

/-- Claim C4 (amended): on a byte sequence that is not valid text,
`read_response` raises a decode error; inside `find_scanner_port` that
exception is caught at the per-endpoint scope (the endpoint is skipped), so
a decode failure is not converted into an empty response. -/
theorem c4_decode_failure_raises (ser : SerialConn) (raw : List Nat)
    (t : Rat) (h : decodeUtf8? raw = none) :
    (read_response ser raw t).2.2 = Except.error () ∧
    (probePort ⟨ser.port, false, Except.ok raw, Except.ok []⟩).result =
      Except.error () := by
  constructor
  · simp [read_response, decodeAndTrim, h]
  · simp [probePort, probeBody, decodeAndTrim, h]

/-- Witness for C4 (amended) at the byte sequence `[0xFF]`. -/
theorem c4_decode_failure_raises_witness :
    decodeUtf8? [255] = none ∧
    ((read_response probeConn [255] 1).2.2 = Except.error () ∧
     (probePort ⟨probeConn.port, false, Except.ok [255], Except.ok []⟩).result =
       Except.error ()) :=
  ⟨rfl, c4_decode_failure_raises probeConn [255] 1 rfl⟩

/-! ### Claim C5 -/

/-- Claim C5: whenever the (stripped) response to the primary probe matches
the grammar `MDL,` followed by a non-empty string over `[A-Za-z0-9,]`, the
endpoint is classified as dialect `uniden` with model code the substring
after the first comma, and the secondary `WI` probe is never written. -/
theorem c5_uniden_classification (dev payload s : Str) (bs : List Nat)
    (wi : Except Unit (List Nat))
    (h1 : decodeUtf8? bs = some s)
    (h2 : strTrim s = mdlHeader ++ payload)
    (h3 : payload ≠ [])
    (h4 : payload.all isMdlChar = true) :
    (probePort ⟨dev, false, Except.ok bs, wi⟩).result =
      Except.ok (some (dev, afterFirstComma (strTrim s), unidenTag)) ∧
    (probePort ⟨dev, false, Except.ok bs, wi⟩).writes = [mdlProbeBytes] := by
  have hpre : mdlHeader.isPrefixOf (mdlHeader ++ payload) = true :=
    List.isPrefixOf_iff_prefix.mpr (List.prefix_append _ _)
  have hdrop : (mdlHeader ++ payload).drop 4 = payload :=
    List.drop_left mdlHeader payload
  have hmdl : mdlMatch? (strTrim s) = some payload := by
    rw [h2]
    unfold mdlMatch?
    rw [if_pos hpre, hdrop, if_pos ⟨h3, h4⟩]
  have hafter : afterFirstComma (strTrim s) = payload := by
    rw [h2]
    simp [mdlHeader, afterFirstComma]
  constructor
  · rw [hafter]
    simp [probePort, probeBody, decodeAndTrim, h1, hmdl]
  · simp [probePort, probeBody, decodeAndTrim, h1, hmdl]

/-- Witness for C5 at the response `b"MDL,BCD\r"`. -/
theorem c5_uniden_classification_witness :
    decodeUtf8? [77, 68, 76, 44, 66, 67, 68, 13] =
      some ['M', 'D', 'L', ',', 'B', 'C', 'D', '\r'] ∧
    strTrim ['M', 'D', 'L', ',', 'B', 'C', 'D', '\r'] =
      mdlHeader ++ ['B', 'C', 'D'] ∧
    ['B', 'C', 'D'] ≠ ([] : Str) ∧
    (['B', 'C', 'D'].all isMdlChar = true) ∧
    ((probePort ⟨['p'], false, Except.ok [77, 68, 76, 44, 66, 67, 68, 13],
        Except.ok []⟩).result =
      Except.ok (some (['p'],
        afterFirstComma (strTrim ['M', 'D', 'L', ',', 'B', 'C', 'D', '\r']),
        unidenTag)) ∧
     (probePort ⟨['p'], false, Except.ok [77, 68, 76, 44, 66, 67, 68, 13],
        Except.ok []⟩).writes = [mdlProbeBytes]) :=
  ⟨rfl, rfl, by decide, rfl,
    c5_uniden_classification ['p'] ['B', 'C', 'D']
      ['M', 'D', 'L', ',', 'B', 'C', 'D', '\r']
      [77, 68, 76, 44, 66, 67, 68, 13] (Except.ok [])
      rfl rfl (by decide) rfl⟩

/-! ### Claim C6 -/

/-- Claim C6: when the primary response does not match the Uniden grammar and
the decoded secondary response equals `"AR-DV1"` after stripping (whatever
leading/trailing whitespace the raw bytes carried), the endpoint is
classified as dialect `aordv1` with the fixed model tag `"AR-DV1"`. -/
theorem c6_aordv1_classification (dev s1 s2 : Str) (bs1 bs2 : List Nat)
    (h1 : decodeUtf8? bs1 = some s1)
    (h2 : mdlMatch? (strTrim s1) = none)
    (h3 : decodeUtf8? bs2 = some s2)
    (h4 : strTrim s2 = arDv1Lit) :
    (probePort ⟨dev, false, Except.ok bs1, Except.ok bs2⟩).result =
      Except.ok (some (dev, arDv1Lit, aordv1Tag)) ∧
    (probePort ⟨dev, false, Except.ok bs1, Except.ok bs2⟩).writes =
      [mdlProbeBytes, wiProbeBytes] := by
  have hcond : strTrim (strTrim s2) = arDv1Lit := by rw [h4]; rfl
  constructor
  · simp [probePort, probeBody, decodeAndTrim, h1, h2, h3, hcond]
  · simp [probePort, probeBody, decodeAndTrim, h1, h2, h3, hcond]

/-- Witness for C6: primary probe times out (empty response), secondary
answers `b" AR-DV1\r"` (leading whitespace in the raw bytes). -/
theorem c6_aordv1_classification_witness :
    decodeUtf8? [] = some [] ∧
    mdlMatch? (strTrim []) = none ∧
    decodeUtf8? [32, 65, 82, 45, 68, 86, 49, 13] =
      some [' ', 'A', 'R', '-', 'D', 'V', '1', '\r'] ∧
    strTrim [' ', 'A', 'R', '-', 'D', 'V', '1', '\r'] = arDv1Lit ∧
    ((probePort ⟨['p'], false, Except.ok [],
        Except.ok [32, 65, 82, 45, 68, 86, 49, 13]⟩).result =
      Except.ok (some (['p'], arDv1Lit, aordv1Tag)) ∧
     (probePort ⟨['p'], false, Except.ok [],
        Except.ok [32, 65, 82, 45, 68, 86, 49, 13]⟩).writes =
      [mdlProbeBytes, wiProbeBytes]) :=
  ⟨rfl, rfl, rfl, rfl,
    c6_aordv1_classification ['p'] [] [' ', 'A', 'R', '-', 'D', 'V', '1', '\r']
      [] [32, 65, 82, 45, 68, 86, 49, 13] rfl rfl rfl rfl⟩

/-! ### Claim C7 -/

/-- Claim C7: an exception raised while opening or talking to an endpoint is
caught at the per-endpoint scope; the endpoint contributes nothing and the
scan proceeds over the remaining endpoints exactly as if the failing
endpoint were absent — no per-endpoint exception aborts or escapes the
pass. -/
theorem c7_exception_skips_endpoint (pre post : List PortBehavior)
    (b : PortBehavior) (h : (probePort b).result = Except.error ()) :
    scanPass (pre ++ b :: post) = scanPass pre ++ scanPass post := by
  induction pre with
  | nil => simp [scanPass, h]
  | cons a pre ih =>
    simp only [List.cons_append, scanPass]
    cases hr : (probePort a).result with
    | error e => simpa using ih
    | ok o =>
      cases o with
      | none => simpa using ih
      | some r => simp [ih]

/-- Witness for C7: a raising endpoint between no endpoint and a responding
Uniden endpoint is skipped, and the Uniden endpoint is still examined. -/
theorem c7_exception_skips_endpoint_witness :
    (probePort failPort).result = Except.error () ∧
    scanPass ([] ++ failPort :: [unidenPort]) =
      scanPass [] ++ scanPass [unidenPort] :=
  ⟨rfl, c7_exception_skips_endpoint [] [unidenPort] failPort rfl⟩

/-! ### Claim C8 -/

/-- Claim C8: each per-endpoint attempt either never opens a connection (the
open itself raised) or opens exactly one and closes it again before the
attempt ends — on every exit path — so over any pass the number of opens
equals the number of closes. -/
theorem c8_connection_scoped (ports : List PortBehavior) (b : PortBehavior) :
    ((probePort b).events = [] ∨
      (probePort b).events = [ConnEvent.opened, ConnEvent.closed]) ∧
    (scanPassTrace ports).count ConnEvent.opened =
      (scanPassTrace ports).count ConnEvent.closed := by
  constructor
  · by_cases hb : b.openFails <;> simp [probePort, hb]
  · induction ports with
    | nil => rfl
    | cons a rest ih =>
      have hsplit : scanPassTrace (a :: rest) =
          (probePort a).events ++ scanPassTrace rest := by
        simp [scanPassTrace]
      have ha : (probePort a).events = [] ∨
          (probePort a).events = [ConnEvent.opened, ConnEvent.closed] := by
        by_cases hf : a.openFails <;> simp [probePort, hf]
      rw [hsplit, List.count_append, List.count_append]
      rcases ha with hc | hc <;> rw [hc] <;> simp [ih, List.count_cons]

/-! ### Claim C9 -/

/-- Claim C9: every `send_command` call (and every `read_response` call with
its default argument) overwrites the connection's read-timeout field with
1.0 s, and the field still holds 1.0 after the call, whatever timeout the
connection was opened with. -/
theorem c9_timeout_overwritten (ser : SerialConn) (cmd : Str)
    (raw : List Nat) :
    (send_command ser cmd raw).conn.timeout = 1 ∧
    (read_response_default ser raw).1.timeout = 1 :=
  ⟨rfl, rfl⟩

/-! ### Claim C10 -/

/-- Claim C10: with `max_wait ≤ 0` the elapsed-time guard fails before the
first poll, so `wait_for_data` returns `false` having inspected
`ser.in_waiting` zero times — even when data is already available. -/
theorem c10_nonpositive_wait (inWaiting : Nat → Bool) (maxWait : Rat)
    (h : maxWait ≤ 0) :
    wait_for_data_run inWaiting maxWait = (false, 0) := by
  have hlt : ¬ ((0 : Nat) : Rat) / 100 < maxWait := by
    push_cast
    rw [zero_div]
    exact not_lt.mpr h
  rw [wait_for_data_run, wfdFuel, wfdGo, if_neg hlt]

/-- Witness for C10 at `max_wait = 0` with data available on every poll. -/
theorem c10_nonpositive_wait_witness :
    (0 : Rat) ≤ 0 ∧ wait_for_data_run (fun _ => true) 0 = (false, 0) :=
  ⟨le_refl 0, c10_nonpositive_wait (fun _ => true) 0 (le_refl 0)⟩
